import Mathlib

/-!
Shallow embedding of the WebGL mesh-generation code in
src/de.rutsche.webgl/world.js (VertexBasedShape, GenerateParametricSurface,
Torus, Sphere).

Modelling conventions:
* JavaScript numbers are modelled by an arbitrary field alpha for the
  tessellator (its claims are structural and hold for any exact scalar
  type; witnesses instantiate alpha at the rationals), and by the real
  numbers for the torus evaluators, whose claims are explicitly about
  exact real arithmetic (Math.cos, Math.sin, Math.PI become Real.cos,
  Real.sin, Real.pi).
* A Float32Array written sequentially through a monotone cursor
  (vtexcoord[tex_i++] = ..., etc.) is modelled as a list holding exactly
  the values written, in write order; "length of the stream" is the final
  cursor value, i.e. the number of floats actually written.
* The WebGL context gl, the element/index buffers, and the draw call are
  external collaborators with no logic of their own and are not modelled.
-/

/-- A parametric surface object as consumed by GenerateParametricSurface:
an object that may define position(u,v), normal(u,v) and texCoord(u,v)
methods (world.js lines 133-135); a missing method is JavaScript
undefined, modelled by none. -/
structure ParametricSurface (α : Type) where
  position : Option (α → α → α × α × α)
  normal : Option (α → α → α × α × α)
  texCoord : Option (α → α → α × α)

/-- The four output streams of GenerateParametricSurface: the written
contents of the local Float32Arrays vtexcoord, vposition, vnormal,
vcolor (world.js lines 156-165), each in write order. -/
structure Streams (α : Type) where
  vtexcoord : List α
  vposition : List α
  vnormal : List α
  vcolor : List α

/-- A vertex attribute buffer as handed to the shape: attribute name,
component count per vertex, and the data array
(world.js line 57 constructor call arguments). -/
structure VertexAttributeBuffer (α : Type) where
  attrType : String
  numElements : ℕ
  dataArray : List α

/-- Modelled from the spec: the VertexAttributeBuffer class itself is not
in src (only its constructor call site and its numVertices field are).
Per the spec's data model — "a named, typed, fixed-length numeric array
... with its component count" — the buffer's implied vertex count is the
data length divided by the per-vertex component count. -/
def VertexAttributeBuffer.numVertices {α : Type} (b : VertexAttributeBuffer α) : ℕ :=
  b.dataArray.length / b.numElements

/-- VertexBasedShape (world.js lines 41-92): declared vertex count and the
list of attached vertex attribute buffers. primitiveType and the element
buffer carry no logic relevant to the claims. -/
structure Shape (α : Type) where
  numVertices : ℕ
  vertexBuffers : List (VertexAttributeBuffer α)

/-- VertexBasedShape.addVertexAttribute (world.js lines 56-62): build the
buffer, push it onto vertexBuffers unconditionally, and report a warning
(a console.log, non-fatal) exactly when the buffer's implied vertex count
differs from the shape's declared numVertices. Returns the updated shape
together with the warning flag. -/
def addVertexAttribute {α : Type} (s : Shape α) (attrType : String)
    (numElements : ℕ) (dataArray : List α) : Shape α × Bool :=
  let buf : VertexAttributeBuffer α := ⟨attrType, numElements, dataArray⟩
  (⟨s.numVertices, s.vertexBuffers ++ [buf]⟩,
    decide (s.numVertices ≠ buf.numVertices))

/-- The two floats a single makeVertex call appends to the texcoord
stream: present iff obj.texCoord is defined (world.js lines 171-175). -/
def texPart {α : Type} (obj : ParametricSurface α) (uu vv : α) : List α :=
  match obj.texCoord with
  | some f => [(f uu vv).1, (f uu vv).2]
  | none => []

/-- The three floats a single makeVertex call appends to the position
stream: present iff obj.position is defined (world.js lines 178-183). -/
def positionPart {α : Type} (obj : ParametricSurface α) (uu vv : α) : List α :=
  match obj.position with
  | some f => [(f uu vv).1, (f uu vv).2.1, (f uu vv).2.2]
  | none => []

/-- The three floats a single makeVertex call appends to the normal
stream: present iff obj.normal is defined (world.js lines 186-191). -/
def norPart {α : Type} (obj : ParametricSurface α) (uu vv : α) : List α :=
  match obj.normal with
  | some f => [(f uu vv).1, (f uu vv).2.1, (f uu vv).2.2]
  | none => []

/-- The three floats a single makeVertex call appends to the color
stream: present iff the color passed to makeVertex is defined
(world.js lines 194-198). -/
def colPart {α : Type} (color : Option (α × α × α)) : List α :=
  match color with
  | some c => [c.1, c.2.1, c.2.2]
  | none => []

/-- GenerateParametricSurface's makeVertex subroutine (world.js lines
168-199): for one vertex at parameters (uu,vv) with an optional color,
append texcoord, position, normal and color data to their streams, each
only when its source is defined. -/
def makeVertex {α : Type} (obj : ParametricSurface α) (uu vv : α)
    (color : Option (α × α × α)) (s : Streams α) : Streams α :=
  ⟨s.vtexcoord ++ texPart obj uu vv,
   s.vposition ++ positionPart obj uu vv,
   s.vnormal ++ norPart obj uu vv,
   s.vcolor ++ colPart color⟩

/-- The checkerboard color of cell (i,j): col1 when (i+j) is even, col2
otherwise (world.js line 213). Either argument may be undefined. -/
def cellColor {α : Type} (col1 col2 : Option (α × α × α)) (i j : ℕ) :
    Option (α × α × α) :=
  if (i + j) % 2 = 0 then col1 else col2

/-- The six (u,v) parameter pairs at which cell (i,j) is evaluated, in
emission order (world.js lines 204-223): corners u0,v0 (previous) and
u,v (current), triangle 1 = (u0,v),(u0,v0),(u,v0), triangle 2 =
(u,v),(u0,v),(u,v0). The loop counters are floats in the source, so i-1
is subtraction in the scalar field, applied to the cast of i. -/
def cellParams {α : Type} [Field α] (M N : ℕ) (umin umax vmin vmax : α)
    (i j : ℕ) : List (α × α) :=
  let u0 : α := umin + ((i : α) - 1) * (umax - umin) / (M : α)
  let v0 : α := vmin + ((j : α) - 1) * (vmax - vmin) / (N : α)
  let u : α := umin + (i : α) * (umax - umin) / (M : α)
  let v : α := vmin + (j : α) * (vmax - vmin) / (N : α)
  [(u0, v), (u0, v0), (u, v0), (u, v), (u0, v), (u, v0)]

/-- One iteration of the inner loop body (world.js lines 204-223): pick
the cell's checkerboard color and call makeVertex six times at the cell's
parameter pairs. -/
def emitCell {α : Type} [Field α] (obj : ParametricSurface α) (M N : ℕ)
    (umin umax vmin vmax : α) (col1 col2 : Option (α × α × α))
    (i j : ℕ) (s : Streams α) : Streams α :=
  (cellParams M N umin umax vmin vmax i j).foldl
    (fun st uv => makeVertex obj uv.1 uv.2 (cellColor col1 col2 i j) st) s

/-- The grid walk order of the nested loops (world.js lines 201-202):
i = 1..M outer, j = 1..N inner. -/
def gridCells (M N : ℕ) : List (ℕ × ℕ) :=
  (List.range M).flatMap (fun i0 => (List.range N).map (fun j0 => (i0 + 1, j0 + 1)))

/-- The streams after the full double loop of GenerateParametricSurface
(world.js lines 201-226), starting from empty streams (all cursors 0). -/
def runCells {α : Type} [Field α] (obj : ParametricSurface α) (M N : ℕ)
    (umin umax vmin vmax : α) (col1 col2 : Option (α × α × α)) : Streams α :=
  (gridCells M N).foldl
    (fun s ij => emitCell obj M N umin umax vmin vmax col1 col2 ij.1 ij.2 s)
    ⟨[], [], [], []⟩

/-- The result of a GenerateParametricSurface call: the shape attached to
obj, and the written contents of the four local arrays. -/
structure GPSResult (α : Type) where
  shape : Shape α
  streams : Streams α

/-- GenerateParametricSurface (world.js lines 146-241): create a shape
declaring M*N*6 vertices, run the grid walk filling the four streams,
then attach a vertex attribute buffer for position, normal and texCoord
exactly when obj defines the evaluator, and for color exactly when both
col1 and col2 are defined (lines 228-239), in that order. -/
def GenerateParametricSurface {α : Type} [Field α] (obj : ParametricSurface α)
    (M N : ℕ) (umin umax vmin vmax : α) (col1 col2 : Option (α × α × α)) :
    GPSResult α :=
  let numVertices := M * N * 6
  let s := runCells obj M N umin umax vmin vmax col1 col2
  let shape : Shape α := ⟨numVertices, []⟩
  let shape := if obj.position.isSome then
    (addVertexAttribute shape "vertexPosition" 3 s.vposition).1 else shape
  let shape := if obj.normal.isSome then
    (addVertexAttribute shape "vertexNormal" 3 s.vnormal).1 else shape
  let shape := if obj.texCoord.isSome then
    (addVertexAttribute shape "vertexTexCoord" 2 s.vtexcoord).1 else shape
  let shape := if col1.isSome && col2.isSome then
    (addVertexAttribute shape "vertexColor" 3 s.vcolor).1 else shape
  ⟨shape, s⟩

/-- Torus.position (world.js lines 258-260) for a torus with main radius
radius and tube radius radius2, at parameters (t,p), over exact reals. -/
noncomputable def torusPosition (radius radius2 t p : ℝ) : ℝ × ℝ × ℝ :=
  ((radius + radius2 * Real.cos p) * Real.cos t,
   (radius + radius2 * Real.cos p) * Real.sin t,
   radius2 * Real.sin p)

/-- Torus.normal (world.js lines 262-266): the scale factor h is assigned
1.0 at the start of every call before its three uses (the source writes
to an undeclared global, but always writes 1.0 before reading), so the
returned vector is (cos t * cos p * h, sin t * cos p * h, sin p * h)
with h = 1. -/
noncomputable def torusNormal (radius radius2 t p : ℝ) : ℝ × ℝ × ℝ :=
  let h : ℝ := 1.0
  (Real.cos t * Real.cos p * h, Real.sin t * Real.cos p * h, Real.sin p * h)

/-- The Sphere constructor's color list cList (world.js lines 299-377,
color pushes at lines 365-375): its own inlined grid walk, i = 1..N
outer, j = 1..M inner, and per cell a k = 0..5 loop pushing the three
components of c1 when i%2 + j%2 == 1 and of c2 otherwise. Defined
directly over the same loop structure as the source, independently of
GenerateParametricSurface. -/
def sphereCList {α : Type} (N M : ℕ) (c1 c2 : α × α × α) : List α :=
  (gridCells N M).flatMap (fun ij =>
    (List.range 6).flatMap (fun _ =>
      if ij.1 % 2 + ij.2 % 2 = 1 then [c1.1, c1.2.1, c1.2.2]
      else [c2.1, c2.2.1, c2.2.2]))

/-- A concrete surface over the rationals defining only position, used to
instantiate the universally quantified theorems. -/
def posOnlySurface : ParametricSurface ℚ :=
  ⟨some (fun u v => (u, v, 0)), none, none⟩

/-- A concrete surface over the rationals defining position, normal and
texCoord, used to instantiate the universally quantified theorems. -/
def fullSurface : ParametricSurface ℚ :=
  ⟨some (fun u v => (u, v, 0)),
   some (fun _ _ => (0, 0, 1)),
   some (fun u v => (u, v))⟩

/-- The block of position floats one cell contributes. -/
def cellPos {α : Type} [Field α] (obj : ParametricSurface α) (M N : ℕ)
    (umin umax vmin vmax : α) (i j : ℕ) : List α :=
  (cellParams M N umin umax vmin vmax i j).flatMap (fun uv => positionPart obj uv.1 uv.2)

/-- The block of normal floats one cell contributes. -/
def cellNor {α : Type} [Field α] (obj : ParametricSurface α) (M N : ℕ)
    (umin umax vmin vmax : α) (i j : ℕ) : List α :=
  (cellParams M N umin umax vmin vmax i j).flatMap (fun uv => norPart obj uv.1 uv.2)

/-- The block of texcoord floats one cell contributes. -/
def cellTex {α : Type} [Field α] (obj : ParametricSurface α) (M N : ℕ)
    (umin umax vmin vmax : α) (i j : ℕ) : List α :=
  (cellParams M N umin umax vmin vmax i j).flatMap (fun uv => texPart obj uv.1 uv.2)

/-- The block of color floats one cell contributes. -/
def cellCol {α : Type} (col1 col2 : Option (α × α × α)) (i j : ℕ) : List α :=
  (List.range 6).flatMap (fun _ => colPart (cellColor col1 col2 i j))


/-! ### Stream characterization lemmas -/

theorem makeVertex_fields {α : Type} (obj : ParametricSurface α) (uu vv : α)
    (color : Option (α × α × α)) (s : Streams α) :
    (makeVertex obj uu vv color s).vtexcoord = s.vtexcoord ++ texPart obj uu vv ∧
    (makeVertex obj uu vv color s).vposition = s.vposition ++ positionPart obj uu vv ∧
    (makeVertex obj uu vv color s).vnormal = s.vnormal ++ norPart obj uu vv ∧
    (makeVertex obj uu vv color s).vcolor = s.vcolor ++ colPart color :=
  ⟨rfl, rfl, rfl, rfl⟩

theorem foldl_makeVertex_vtexcoord {α : Type} (obj : ParametricSurface α)
    (color : Option (α × α × α)) (L : List (α × α)) (s : Streams α) :
    ((L.foldl (fun st uv => makeVertex obj uv.1 uv.2 color st) s)).vtexcoord
      = s.vtexcoord ++ L.flatMap (fun uv => texPart obj uv.1 uv.2) := by
  induction L generalizing s with
  | nil => simp
  | cons hd tl ih =>
    simp only [List.foldl_cons, List.flatMap_cons]
    rw [ih]; simp [makeVertex]

theorem foldl_makeVertex_vposition {α : Type} (obj : ParametricSurface α)
    (color : Option (α × α × α)) (L : List (α × α)) (s : Streams α) :
    ((L.foldl (fun st uv => makeVertex obj uv.1 uv.2 color st) s)).vposition
      = s.vposition ++ L.flatMap (fun uv => positionPart obj uv.1 uv.2) := by
  induction L generalizing s with
  | nil => simp
  | cons hd tl ih =>
    simp only [List.foldl_cons, List.flatMap_cons]
    rw [ih]; simp [makeVertex]

theorem foldl_makeVertex_vnormal {α : Type} (obj : ParametricSurface α)
    (color : Option (α × α × α)) (L : List (α × α)) (s : Streams α) :
    ((L.foldl (fun st uv => makeVertex obj uv.1 uv.2 color st) s)).vnormal
      = s.vnormal ++ L.flatMap (fun uv => norPart obj uv.1 uv.2) := by
  induction L generalizing s with
  | nil => simp
  | cons hd tl ih =>
    simp only [List.foldl_cons, List.flatMap_cons]
    rw [ih]; simp [makeVertex]

theorem foldl_makeVertex_vcolor {α : Type} (obj : ParametricSurface α)
    (color : Option (α × α × α)) (L : List (α × α)) (s : Streams α) :
    ((L.foldl (fun st uv => makeVertex obj uv.1 uv.2 color st) s)).vcolor
      = s.vcolor ++ L.flatMap (fun _ => colPart color) := by
  induction L generalizing s with
  | nil => simp
  | cons hd tl ih =>
    simp only [List.foldl_cons, List.flatMap_cons]
    rw [ih]; simp [makeVertex]

theorem emitCell_fields {α : Type} [Field α] (obj : ParametricSurface α)
    (M N : ℕ) (umin umax vmin vmax : α) (col1 col2 : Option (α × α × α))
    (i j : ℕ) (s : Streams α) :
    (emitCell obj M N umin umax vmin vmax col1 col2 i j s).vtexcoord
      = s.vtexcoord ++ cellTex obj M N umin umax vmin vmax i j ∧
    (emitCell obj M N umin umax vmin vmax col1 col2 i j s).vposition
      = s.vposition ++ cellPos obj M N umin umax vmin vmax i j ∧
    (emitCell obj M N umin umax vmin vmax col1 col2 i j s).vnormal
      = s.vnormal ++ cellNor obj M N umin umax vmin vmax i j ∧
    (emitCell obj M N umin umax vmin vmax col1 col2 i j s).vcolor
      = s.vcolor ++ cellCol col1 col2 i j := by
  refine ⟨?_, ?_, ?_, ?_⟩
  · rw [emitCell, foldl_makeVertex_vtexcoord]; rfl
  · rw [emitCell, foldl_makeVertex_vposition]; rfl
  · rw [emitCell, foldl_makeVertex_vnormal]; rfl
  · rw [emitCell, foldl_makeVertex_vcolor]
    have : (cellParams M N umin umax vmin vmax i j).flatMap
        (fun _ => colPart (cellColor col1 col2 i j)) = cellCol col1 col2 i j := by
      cases hc : cellColor col1 col2 i j <;>
        simp [cellParams, cellCol, colPart, hc, List.range_succ]
    rw [this]

theorem runCells_fields {α : Type} [Field α] (obj : ParametricSurface α)
    (M N : ℕ) (umin umax vmin vmax : α) (col1 col2 : Option (α × α × α)) :
    (runCells obj M N umin umax vmin vmax col1 col2).vtexcoord
      = (gridCells M N).flatMap (fun ij => cellTex obj M N umin umax vmin vmax ij.1 ij.2) ∧
    (runCells obj M N umin umax vmin vmax col1 col2).vposition
      = (gridCells M N).flatMap (fun ij => cellPos obj M N umin umax vmin vmax ij.1 ij.2) ∧
    (runCells obj M N umin umax vmin vmax col1 col2).vnormal
      = (gridCells M N).flatMap (fun ij => cellNor obj M N umin umax vmin vmax ij.1 ij.2) ∧
    (runCells obj M N umin umax vmin vmax col1 col2).vcolor
      = (gridCells M N).flatMap (fun ij => cellCol col1 col2 ij.1 ij.2) := by
  rw [runCells]
  generalize gridCells M N = cells
  suffices h : ∀ (cells : List (ℕ × ℕ)) (s : Streams α),
      (cells.foldl (fun s ij => emitCell obj M N umin umax vmin vmax col1 col2 ij.1 ij.2 s) s).vtexcoord
        = s.vtexcoord ++ cells.flatMap (fun ij => cellTex obj M N umin umax vmin vmax ij.1 ij.2) ∧
      (cells.foldl (fun s ij => emitCell obj M N umin umax vmin vmax col1 col2 ij.1 ij.2 s) s).vposition
        = s.vposition ++ cells.flatMap (fun ij => cellPos obj M N umin umax vmin vmax ij.1 ij.2) ∧
      (cells.foldl (fun s ij => emitCell obj M N umin umax vmin vmax col1 col2 ij.1 ij.2 s) s).vnormal
        = s.vnormal ++ cells.flatMap (fun ij => cellNor obj M N umin umax vmin vmax ij.1 ij.2) ∧
      (cells.foldl (fun s ij => emitCell obj M N umin umax vmin vmax col1 col2 ij.1 ij.2 s) s).vcolor
        = s.vcolor ++ cells.flatMap (fun ij => cellCol col1 col2 ij.1 ij.2) by
    have h2 := h cells ⟨[], [], [], []⟩
    simpa using h2
  intro cells
  induction cells with
  | nil => intro s; simp
  | cons hd tl ih =>
    intro s
    have he := emitCell_fields obj M N umin umax vmin vmax col1 col2 hd.1 hd.2 s
    have ht := ih (emitCell obj M N umin umax vmin vmax col1 col2 hd.1 hd.2 s)
    simp only [List.foldl_cons, List.flatMap_cons] at *
    rw [ht.1, ht.2.1, ht.2.2.1, ht.2.2.2, he.1, he.2.1, he.2.2.1, he.2.2.2]
    simp [List.append_assoc]

/-! ### Grid and length lemmas -/

theorem length_flatMap_const {β γ : Type} (L : List β) (f : β → List γ) (c : ℕ)
    (h : ∀ b ∈ L, (f b).length = c) : (L.flatMap f).length = L.length * c := by
  induction L with
  | nil => simp
  | cons hd tl ih =>
    simp only [List.flatMap_cons, List.length_append, List.length_cons]
    rw [h hd (by simp), ih (fun b hb => h b (by simp [hb]))]
    ring

theorem gridCells_length (M N : ℕ) : (gridCells M N).length = M * N := by
  rw [gridCells, length_flatMap_const _ _ N (by intro b _; simp)]
  simp

theorem mem_gridCells {M N : ℕ} {ij : ℕ × ℕ} (h : ij ∈ gridCells M N) :
    1 ≤ ij.1 ∧ ij.1 ≤ M ∧ 1 ≤ ij.2 ∧ ij.2 ≤ N := by
  simp only [gridCells, List.mem_flatMap, List.mem_map, List.mem_range] at h
  obtain ⟨i0, hi0, j0, hj0, rfl⟩ := h
  simp only
  omega


theorem range_split {k M : ℕ} (h : k < M) :
    List.range M
      = List.range k ++ k :: (List.range (M - (k + 1))).map (fun x => (k + 1) + x) := by
  obtain ⟨m, rfl⟩ : ∃ m, M = k + 1 + m := ⟨M - (k + 1), by omega⟩
  have h1 : k + 1 + m - (k + 1) = m := by omega
  have h2 : k + 1 + m = k + (1 + m) := by omega
  rw [h1, h2, List.range_add]
  congr 1
  have h3 : 1 + m = m + 1 := by omega
  rw [h3, List.range_succ_eq_map]
  simp only [List.map_cons, List.map_map, Nat.add_zero]
  congr 1
  apply List.map_congr_left
  intro b _
  simp only [Function.comp_apply]
  omega

theorem gridCells_split {M N i j : ℕ} (hi1 : 1 ≤ i) (hiM : i ≤ M)
    (hj1 : 1 ≤ j) (hjN : N ≥ j) :
    ∃ A B, gridCells M N = A ++ (i, j) :: B ∧ A.length = (i - 1) * N + (j - 1) := by
  have hiM2 : i - 1 < M := by omega
  have hjN2 : j - 1 < N := by omega
  have hsub1 : (i - 1) + 1 = i := by omega
  have hsub2 : (j - 1) + 1 = j := by omega
  have hrM := range_split hiM2
  have hrN := range_split hjN2
  rw [hsub1] at hrM
  rw [hsub2] at hrN
  refine ⟨(List.range (i - 1)).flatMap
      (fun i0 => (List.range N).map (fun j0 => (i0 + 1, j0 + 1)))
      ++ (List.range (j - 1)).map (fun j0 => (i, j0 + 1)),
    ((List.range (N - j)).map (fun x => (i, j + x + 1)))
      ++ ((List.range (M - i)).map (fun x => i + x)).flatMap
        (fun i0 => (List.range N).map (fun j0 => (i0 + 1, j0 + 1))), ?_, ?_⟩
  · rw [gridCells, hrM]
    rw [List.flatMap_append, List.flatMap_cons]
    have hmid : (List.range N).map (fun j0 => ((i - 1) + 1, j0 + 1))
        = (List.range (j - 1)).map (fun j0 => (i, j0 + 1))
          ++ (i, j) :: (List.range (N - j)).map (fun x => (i, j + x + 1)) := by
      rw [hrN]
      simp only [List.map_append, List.map_cons, List.map_map, hsub1, hsub2]
      congr 2
    rw [hmid]
    simp only [List.append_assoc, List.cons_append]
  · rw [List.length_append,
      length_flatMap_const _ _ N (by intro b _; simp)]
    simp

theorem flatMap_segment {β γ : Type} (f : β → List γ) (A : List β) (x : β)
    (B : List β) (c : ℕ) (hA : ∀ b ∈ A, (f b).length = c)
    (hx : (f x).length = c) :
    (((A ++ x :: B).flatMap f).drop (A.length * c)).take c = f x := by
  have h1 : (A.flatMap f).length = A.length * c := length_flatMap_const A f c hA
  calc (((A ++ x :: B).flatMap f).drop (A.length * c)).take c
      = ((A.flatMap f ++ (f x ++ B.flatMap f)).drop (A.flatMap f).length).take c := by
        rw [h1, List.flatMap_append, List.flatMap_cons]
    _ = (f x ++ B.flatMap f).take (f x).length := by rw [List.drop_left, hx]
    _ = f x := List.take_left _ _

theorem cellPos_length {α : Type} [Field α] (obj : ParametricSurface α)
    (M N : ℕ) (umin umax vmin vmax : α) (i j : ℕ) :
    (cellPos obj M N umin umax vmin vmax i j).length
      = if obj.position.isSome then 18 else 0 := by
  cases h : obj.position <;> simp [cellPos, cellParams, positionPart, h]

theorem cellNor_length {α : Type} [Field α] (obj : ParametricSurface α)
    (M N : ℕ) (umin umax vmin vmax : α) (i j : ℕ) :
    (cellNor obj M N umin umax vmin vmax i j).length
      = if obj.normal.isSome then 18 else 0 := by
  cases h : obj.normal <;> simp [cellNor, cellParams, norPart, h]

theorem cellTex_length {α : Type} [Field α] (obj : ParametricSurface α)
    (M N : ℕ) (umin umax vmin vmax : α) (i j : ℕ) :
    (cellTex obj M N umin umax vmin vmax i j).length
      = if obj.texCoord.isSome then 12 else 0 := by
  cases h : obj.texCoord <;> simp [cellTex, cellParams, texPart, h]

theorem cellCol_length {α : Type} (col1 col2 : Option (α × α × α)) (i j : ℕ) :
    (cellCol col1 col2 i j).length
      = if (cellColor col1 col2 i j).isSome then 18 else 0 := by
  cases h : cellColor col1 col2 i j <;>
    simp [cellCol, colPart, h, List.range_succ]

theorem gridCells_nil {M N : ℕ} (h : M = 0 ∨ N = 0) : gridCells M N = [] := by
  rcases h with h | h <;> subst h <;> simp [gridCells]

theorem GPS_streams {α : Type} [Field α] (obj : ParametricSurface α) (M N : ℕ)
    (umin umax vmin vmax : α) (col1 col2 : Option (α × α × α)) :
    (GenerateParametricSurface obj M N umin umax vmin vmax col1 col2).streams
      = runCells obj M N umin umax vmin vmax col1 col2 := rfl

theorem GPS_numVertices {α : Type} [Field α] (obj : ParametricSurface α) (M N : ℕ)
    (umin umax vmin vmax : α) (col1 col2 : Option (α × α × α)) :
    (GenerateParametricSurface obj M N umin umax vmin vmax col1 col2).shape.numVertices
      = M * N * 6 := by
  simp only [GenerateParametricSurface, addVertexAttribute]
  split_ifs <;> rfl

theorem GPS_buffers {α : Type} [Field α] (obj : ParametricSurface α) (M N : ℕ)
    (umin umax vmin vmax : α) (col1 col2 : Option (α × α × α)) :
    (GenerateParametricSurface obj M N umin umax vmin vmax col1 col2).shape.vertexBuffers
      = (if obj.position.isSome then
          [⟨"vertexPosition", 3, (runCells obj M N umin umax vmin vmax col1 col2).vposition⟩] else [])
        ++ (if obj.normal.isSome then
          [⟨"vertexNormal", 3, (runCells obj M N umin umax vmin vmax col1 col2).vnormal⟩] else [])
        ++ (if obj.texCoord.isSome then
          [⟨"vertexTexCoord", 2, (runCells obj M N umin umax vmin vmax col1 col2).vtexcoord⟩] else [])
        ++ (if col1.isSome && col2.isSome then
          [⟨"vertexColor", 3, (runCells obj M N umin umax vmin vmax col1 col2).vcolor⟩] else []) := by
  simp only [GenerateParametricSurface, addVertexAttribute]
  split_ifs <;> simp

/-! ### Claim theorems -/

/-- C1 (amended): for every surface, all M,N >= 1, and col1/col2 either
both supplied or both omitted, GenerateParametricSurface produces a shape
whose declared vertex count is M*N*6, and every attribute stream it fills
has length either 0 (attribute absent) or exactly (M*N*6) times that
attribute's component count (3 position, 3 normal, 2 texcoord, 3 color). -/
theorem claim_C1_amended {α : Type} [Field α] (obj : ParametricSurface α)
    (M N : ℕ) (umin umax vmin vmax : α) (col1 col2 : Option (α × α × α))
    (hM : 1 ≤ M) (hN : 1 ≤ N) (hc : col1.isSome = col2.isSome) :
    (GenerateParametricSurface obj M N umin umax vmin vmax col1 col2).shape.numVertices
      = M * N * 6 ∧
    (GenerateParametricSurface obj M N umin umax vmin vmax col1 col2).streams.vposition.length
      = (if obj.position.isSome then M * N * 6 * 3 else 0) ∧
    (GenerateParametricSurface obj M N umin umax vmin vmax col1 col2).streams.vnormal.length
      = (if obj.normal.isSome then M * N * 6 * 3 else 0) ∧
    (GenerateParametricSurface obj M N umin umax vmin vmax col1 col2).streams.vtexcoord.length
      = (if obj.texCoord.isSome then M * N * 6 * 2 else 0) ∧
    (GenerateParametricSurface obj M N umin umax vmin vmax col1 col2).streams.vcolor.length
      = (if col1.isSome then M * N * 6 * 3 else 0) := by
  have hrun := runCells_fields obj M N umin umax vmin vmax col1 col2
  refine ⟨GPS_numVertices obj M N umin umax vmin vmax col1 col2, ?_, ?_, ?_, ?_⟩
  · rw [GPS_streams, hrun.2.1,
      length_flatMap_const _ _ (if obj.position.isSome then 18 else 0)
        (fun b _ => cellPos_length obj M N umin umax vmin vmax b.1 b.2),
      gridCells_length]
    cases hp : obj.position.isSome <;> simp [hp] <;> ring
  · rw [GPS_streams, hrun.2.2.1,
      length_flatMap_const _ _ (if obj.normal.isSome then 18 else 0)
        (fun b _ => cellNor_length obj M N umin umax vmin vmax b.1 b.2),
      gridCells_length]
    cases hp : obj.normal.isSome <;> simp [hp] <;> ring
  · rw [GPS_streams, hrun.1,
      length_flatMap_const _ _ (if obj.texCoord.isSome then 12 else 0)
        (fun b _ => cellTex_length obj M N umin umax vmin vmax b.1 b.2),
      gridCells_length]
    cases hp : obj.texCoord.isSome <;> simp [hp] <;> ring
  · have hcell : ∀ b ∈ gridCells M N,
        (cellCol col1 col2 b.1 b.2).length = (if col1.isSome then 18 else 0) := by
      intro b _
      rw [cellCol_length]
      congr 1
      unfold cellColor
      split <;> simp [hc]
    rw [GPS_streams, hrun.2.2.2, length_flatMap_const _ _ _ hcell, gridCells_length]
    cases hp : col1.isSome <;> simp [hp] <;> ring

/-- C1 (counterexample): with col1 supplied and col2 omitted, at M=2, N=1
the color stream is filled with 18 floats (only the cell whose parity
selects col1 writes), which is neither 0 nor M*N*6*3 = 36, refuting the
claim as stated. -/
theorem claim_C1_counterexample :
    (GenerateParametricSurface posOnlySurface 2 1 (0 : ℚ) 1 0 1
        (some (1, 1, 1)) none).streams.vcolor.length = 18 ∧
    (18 : ℕ) ≠ 0 ∧ (18 : ℕ) ≠ 2 * 1 * 6 * 3 := by
  refine ⟨?_, by decide, by decide⟩
  decide

/-- C1 (witness): the amended claim instantiated at a surface with all
three evaluators, both colors, M = N = 1. -/
theorem claim_C1_witness :
    (GenerateParametricSurface fullSurface 1 1 (0 : ℚ) 1 0 1
        (some (1, 0, 0)) (some (0, 1, 0))).shape.numVertices = 6 ∧
    (GenerateParametricSurface fullSurface 1 1 (0 : ℚ) 1 0 1
        (some (1, 0, 0)) (some (0, 1, 0))).streams.vposition.length = 18 ∧
    (GenerateParametricSurface fullSurface 1 1 (0 : ℚ) 1 0 1
        (some (1, 0, 0)) (some (0, 1, 0))).streams.vnormal.length = 18 ∧
    (GenerateParametricSurface fullSurface 1 1 (0 : ℚ) 1 0 1
        (some (1, 0, 0)) (some (0, 1, 0))).streams.vtexcoord.length = 12 ∧
    (GenerateParametricSurface fullSurface 1 1 (0 : ℚ) 1 0 1
        (some (1, 0, 0)) (some (0, 1, 0))).streams.vcolor.length = 18 := by
  have h := claim_C1_amended fullSurface 1 1 (0 : ℚ) 1 0 1
    (some (1, 0, 0)) (some (0, 1, 0)) (by decide) (by decide) (by decide)
  simpa [fullSurface] using h

/-- C2: for every cell (i,j) with 1 <= i <= M, 1 <= j <= N, the 18
position floats of cell (i,j) (at offset ((i-1)*N + (j-1))*18 in the
position stream) are the surface evaluated at the four parameter corners
u0 = umin + (i-1)*(umax-umin)/M, u = umin + i*(umax-umin)/M,
v0 = vmin + (j-1)*(vmax-vmin)/N, v = vmin + j*(vmax-vmin)/N, emitted as
exactly 6 vertices in the order (u0,v), (u0,v0), (u,v0) for triangle 1
and (u,v), (u0,v), (u,v0) for triangle 2. -/
theorem claim_C2 {α : Type} [Field α] (obj : ParametricSurface α)
    (f : α → α → α × α × α) (M N : ℕ) (umin umax vmin vmax : α)
    (col1 col2 : Option (α × α × α)) (i j : ℕ)
    (hi1 : 1 ≤ i) (hiM : i ≤ M) (hj1 : 1 ≤ j) (hjN : j ≤ N)
    (hf : obj.position = some f) :
    (((GenerateParametricSurface obj M N umin umax vmin vmax col1 col2).streams.vposition).drop
        (((i - 1) * N + (j - 1)) * 18)).take 18
      = ([(umin + ((i : α) - 1) * (umax - umin) / (M : α),
           vmin + (j : α) * (vmax - vmin) / (N : α)),
          (umin + ((i : α) - 1) * (umax - umin) / (M : α),
           vmin + ((j : α) - 1) * (vmax - vmin) / (N : α)),
          (umin + (i : α) * (umax - umin) / (M : α),
           vmin + ((j : α) - 1) * (vmax - vmin) / (N : α)),
          (umin + (i : α) * (umax - umin) / (M : α),
           vmin + (j : α) * (vmax - vmin) / (N : α)),
          (umin + ((i : α) - 1) * (umax - umin) / (M : α),
           vmin + (j : α) * (vmax - vmin) / (N : α)),
          (umin + (i : α) * (umax - umin) / (M : α),
           vmin + ((j : α) - 1) * (vmax - vmin) / (N : α))]).flatMap
          (fun uv => [(f uv.1 uv.2).1, (f uv.1 uv.2).2.1, (f uv.1 uv.2).2.2]) := by
  obtain ⟨A, B, hsplit, hlen⟩ := gridCells_split hi1 hiM hj1 hjN
  have hrun := runCells_fields obj M N umin umax vmin vmax col1 col2
  rw [GPS_streams, hrun.2.1, hsplit, ← hlen]
  rw [flatMap_segment _ A (i, j) B 18
    (fun b _ => by rw [cellPos_length, hf]; rfl)
    (by rw [cellPos_length, hf]; rfl)]
  simp [cellPos, cellParams, positionPart, hf]

/-- C3: for every cell (i,j) with both colors supplied, the cell's color
is col1 when (i+j) mod 2 = 0 and col2 otherwise, and the cell's 18 color
floats (at offset ((i-1)*N + (j-1))*18 in the color stream) are 6 copies
of that single color. -/
theorem claim_C3 {α : Type} [Field α] (obj : ParametricSurface α)
    (M N : ℕ) (umin umax vmin vmax : α) (c1 c2 : α × α × α) (i j : ℕ)
    (hi1 : 1 ≤ i) (hiM : i ≤ M) (hj1 : 1 ≤ j) (hjN : j ≤ N) :
    cellColor (some c1) (some c2) i j
      = some (if (i + j) % 2 = 0 then c1 else c2) ∧
    (((GenerateParametricSurface obj M N umin umax vmin vmax
        (some c1) (some c2)).streams.vcolor).drop
        (((i - 1) * N + (j - 1)) * 18)).take 18
      = (List.replicate 6 (if (i + j) % 2 = 0 then c1 else c2)).flatMap
          (fun c => [c.1, c.2.1, c.2.2]) := by
  constructor
  · unfold cellColor
    split <;> rfl
  · obtain ⟨A, B, hsplit, hlen⟩ := gridCells_split hi1 hiM hj1 hjN
    have hrun := runCells_fields obj M N umin umax vmin vmax (some c1) (some c2)
    rw [GPS_streams, hrun.2.2.2, hsplit, ← hlen]
    rw [flatMap_segment _ A (i, j) B 18
      (fun b _ => by rw [cellCol_length]; unfold cellColor; split <;> rfl)
      (by rw [cellCol_length]; unfold cellColor; split <;> rfl)]
    unfold cellCol cellColor
    split <;> simp [colPart, List.range_succ, List.replicate]

/-- C2 (witness): the surface (u,v) -> (u,v,0) on [0,1]x[0,1] with
M = N = 1 at cell (1,1): corners u0 = 0, u = 1, v0 = 0, v = 1 and the six
emitted positions in claimed order. -/
theorem claim_C2_witness :
    (((GenerateParametricSurface posOnlySurface 1 1 (0 : ℚ) 1 0 1
        none none).streams.vposition).drop (((1 - 1) * 1 + (1 - 1)) * 18)).take 18
      = [0, 1, 0, 0, 0, 0, 1, 0, 0, 1, 1, 0, 0, 1, 0, 1, 0, 0] := by
  have h := claim_C2 posOnlySurface (fun u v => (u, v, 0)) 1 1 (0 : ℚ) 1 0 1
    none none 1 1 (by decide) (by decide) (by decide) (by decide) rfl
  exact h.trans (by norm_num [List.flatMap])

/-- C3 (witness): colors (1,0,0) and (0,1,0) at cell (1,1) of a 1x1 grid:
(1+1) mod 2 = 0 so all six vertices get color1 = (1,0,0). -/
theorem claim_C3_witness :
    cellColor (some ((1 : ℚ), 0, 0)) (some (0, 1, 0)) 1 1 = some (1, 0, 0) ∧
    (((GenerateParametricSurface posOnlySurface 1 1 (0 : ℚ) 1 0 1
        (some (1, 0, 0)) (some (0, 1, 0))).streams.vcolor).drop
        (((1 - 1) * 1 + (1 - 1)) * 18)).take 18
      = [1, 0, 0, 1, 0, 0, 1, 0, 0, 1, 0, 0, 1, 0, 0, 1, 0, 0] := by
  have h := claim_C3 posOnlySurface 1 1 (0 : ℚ) 1 0 1 (1, 0, 0) (0, 1, 0) 1 1
    (by decide) (by decide) (by decide) (by decide)
  exact ⟨h.1.trans (by decide), h.2.trans (by decide)⟩

/-- C4: GenerateParametricSurface attaches a buffer exactly for the
attributes the surface (or both color arguments) supplies; absent
attributes leave their streams empty; in particular a position-only
surface at M=2, N=1 yields a 36-float position stream and only the
vertexPosition buffer. -/
theorem claim_C4 {α : Type} [Field α] (obj : ParametricSurface α) (M N : ℕ)
    (umin umax vmin vmax : α) (col1 col2 : Option (α × α × α)) :
    ((GenerateParametricSurface obj M N umin umax vmin vmax col1 col2).shape.vertexBuffers.map
        (fun b => b.attrType)
      = (if obj.position.isSome then ["vertexPosition"] else [])
        ++ (if obj.normal.isSome then ["vertexNormal"] else [])
        ++ (if obj.texCoord.isSome then ["vertexTexCoord"] else [])
        ++ (if col1.isSome && col2.isSome then ["vertexColor"] else [])) ∧
    (obj.position = none →
      (GenerateParametricSurface obj M N umin umax vmin vmax col1 col2).streams.vposition = []) ∧
    (obj.normal = none →
      (GenerateParametricSurface obj M N umin umax vmin vmax col1 col2).streams.vnormal = []) ∧
    (obj.texCoord = none →
      (GenerateParametricSurface obj M N umin umax vmin vmax col1 col2).streams.vtexcoord = []) ∧
    (col1 = none → col2 = none →
      (GenerateParametricSurface obj M N umin umax vmin vmax col1 col2).streams.vcolor = []) ∧
    (GenerateParametricSurface posOnlySurface 2 1 (0 : ℚ) 1 0 1
        none none).streams.vposition.length = 36 ∧
    (GenerateParametricSurface posOnlySurface 2 1 (0 : ℚ) 1 0 1
        none none).shape.vertexBuffers.map (fun b => b.attrType) = ["vertexPosition"] := by
  have hrun := runCells_fields obj M N umin umax vmin vmax col1 col2
  refine ⟨?_, ?_, ?_, ?_, ?_, by decide, by decide⟩
  · rw [GPS_buffers]
    split_ifs <;> simp
  · intro hp
    rw [GPS_streams, hrun.2.1]
    have : ∀ ij ∈ gridCells M N, cellPos obj M N umin umax vmin vmax ij.1 ij.2 = [] := by
      intro ij _
      simp [cellPos, cellParams, positionPart, hp]
    rw [List.flatMap_eq_nil_iff.2 this]
  · intro hn
    rw [GPS_streams, hrun.2.2.1]
    have : ∀ ij ∈ gridCells M N, cellNor obj M N umin umax vmin vmax ij.1 ij.2 = [] := by
      intro ij _
      simp [cellNor, cellParams, norPart, hn]
    rw [List.flatMap_eq_nil_iff.2 this]
  · intro ht
    rw [GPS_streams, hrun.1]
    have : ∀ ij ∈ gridCells M N, cellTex obj M N umin umax vmin vmax ij.1 ij.2 = [] := by
      intro ij _
      simp [cellTex, cellParams, texPart, ht]
    rw [List.flatMap_eq_nil_iff.2 this]
  · intro hc1 hc2
    rw [GPS_streams, hrun.2.2.2]
    have : ∀ ij ∈ gridCells M N, cellCol col1 col2 ij.1 ij.2 = [] := by
      intro ij _
      simp [cellCol, cellColor, colPart, hc1, hc2]
    rw [List.flatMap_eq_nil_iff.2 this]

/-- C4 (witness): at the position-only surface (M=2, N=1, no colors),
only the vertexPosition buffer is attached and the normal, texcoord and
color streams are empty. -/
theorem claim_C4_witness :
    (GenerateParametricSurface posOnlySurface 2 1 (0 : ℚ) 1 0 1
        none none).shape.vertexBuffers.map (fun b => b.attrType) = ["vertexPosition"] ∧
    (GenerateParametricSurface posOnlySurface 2 1 (0 : ℚ) 1 0 1
        none none).streams.vnormal = [] ∧
    (GenerateParametricSurface posOnlySurface 2 1 (0 : ℚ) 1 0 1
        none none).streams.vtexcoord = [] ∧
    (GenerateParametricSurface posOnlySurface 2 1 (0 : ℚ) 1 0 1
        none none).streams.vcolor = [] := by
  have h := claim_C4 posOnlySurface 2 1 (0 : ℚ) 1 0 1 none none
  exact ⟨h.2.2.2.2.2.2, h.2.2.1 rfl, h.2.2.2.1 rfl, h.2.2.2.2.1 rfl rfl⟩

theorem mem_if_singleton {β : Type} {b x : β} {c : Prop} [Decidable c]
    (hb : b ∈ (if c then [x] else [])) : b = x := by
  split at hb
  · simpa using hb
  · simp at hb

/-- C5: with M=0 or N=0, GenerateParametricSurface completes (it is a
total function) and produces a shape declaring 0 vertices, with all four
streams empty and every attached buffer's data array empty. -/
theorem claim_C5 {α : Type} [Field α] (obj : ParametricSurface α) (M N : ℕ)
    (umin umax vmin vmax : α) (col1 col2 : Option (α × α × α))
    (h : M = 0 ∨ N = 0) :
    (GenerateParametricSurface obj M N umin umax vmin vmax col1 col2).shape.numVertices = 0 ∧
    (GenerateParametricSurface obj M N umin umax vmin vmax col1 col2).streams.vtexcoord = [] ∧
    (GenerateParametricSurface obj M N umin umax vmin vmax col1 col2).streams.vposition = [] ∧
    (GenerateParametricSurface obj M N umin umax vmin vmax col1 col2).streams.vnormal = [] ∧
    (GenerateParametricSurface obj M N umin umax vmin vmax col1 col2).streams.vcolor = [] ∧
    ∀ b ∈ (GenerateParametricSurface obj M N umin umax vmin vmax col1 col2).shape.vertexBuffers,
      b.dataArray = [] := by
  have hnil := gridCells_nil h
  have hrun := runCells_fields obj M N umin umax vmin vmax col1 col2
  obtain ⟨h1, h2, h3, h4⟩ := hrun
  rw [hnil] at h1 h2 h3 h4
  simp only [List.flatMap_nil] at h1 h2 h3 h4
  have hS : runCells obj M N umin umax vmin vmax col1 col2 = ⟨[], [], [], []⟩ := by
    have he : runCells obj M N umin umax vmin vmax col1 col2
        = ⟨(runCells obj M N umin umax vmin vmax col1 col2).vtexcoord,
           (runCells obj M N umin umax vmin vmax col1 col2).vposition,
           (runCells obj M N umin umax vmin vmax col1 col2).vnormal,
           (runCells obj M N umin umax vmin vmax col1 col2).vcolor⟩ := rfl
    rw [he, h1, h2, h3, h4]
  refine ⟨?_, ?_, ?_, ?_, ?_, ?_⟩
  · rw [GPS_numVertices]
    rcases h with h | h <;> rw [h] <;> ring
  · rw [GPS_streams]; exact h1
  · rw [GPS_streams]; exact h2
  · rw [GPS_streams]; exact h3
  · rw [GPS_streams]; exact h4
  · intro b hb
    rw [GPS_buffers, hS] at hb
    rcases List.mem_append.1 hb with hb | hb
    · rcases List.mem_append.1 hb with hb | hb
      · rcases List.mem_append.1 hb with hb | hb
        · rw [mem_if_singleton hb]
        · rw [mem_if_singleton hb]
      · rw [mem_if_singleton hb]
    · rw [mem_if_singleton hb]

/-- C5 (witness): the position-only surface at M=0, N=5. -/
theorem claim_C5_witness :
    (GenerateParametricSurface posOnlySurface 0 5 (0 : ℚ) 1 0 1 none none).shape.numVertices = 0 ∧
    (GenerateParametricSurface posOnlySurface 0 5 (0 : ℚ) 1 0 1 none none).streams.vtexcoord = [] ∧
    (GenerateParametricSurface posOnlySurface 0 5 (0 : ℚ) 1 0 1 none none).streams.vposition = [] ∧
    (GenerateParametricSurface posOnlySurface 0 5 (0 : ℚ) 1 0 1 none none).streams.vnormal = [] ∧
    (GenerateParametricSurface posOnlySurface 0 5 (0 : ℚ) 1 0 1 none none).streams.vcolor = [] ∧
    ∀ b ∈ (GenerateParametricSurface posOnlySurface 0 5 (0 : ℚ) 1 0 1
        none none).shape.vertexBuffers, b.dataArray = [] :=
  claim_C5 posOnlySurface 0 5 (0 : ℚ) 1 0 1 none none (Or.inl rfl)

/-- C6: when addVertexAttribute receives a data array whose implied
vertex count differs from the shape's declared numVertices, it reports
the warning (true flag), still appends the buffer to vertexBuffers, and
leaves the shape's declared vertex count unchanged (non-fatal: the
function is total and rendering state is otherwise untouched). -/
theorem claim_C6 {α : Type} (s : Shape α) (t : String) (k : ℕ) (d : List α)
    (h : s.numVertices ≠ d.length / k) :
    (addVertexAttribute s t k d).2 = true ∧
    (addVertexAttribute s t k d).1.vertexBuffers = s.vertexBuffers ++ [⟨t, k, d⟩] ∧
    (addVertexAttribute s t k d).1.numVertices = s.numVertices := by
  refine ⟨?_, rfl, rfl⟩
  simp only [addVertexAttribute, VertexAttributeBuffer.numVertices, decide_eq_true_eq]
  exact h

/-- C6 (witness): a shape declaring 6 vertices given a 3-float position
array (implied count 1). -/
theorem claim_C6_witness :
    (addVertexAttribute (⟨6, []⟩ : Shape ℚ) "vertexPosition" 3 [0, 0, 0]).2 = true ∧
    (addVertexAttribute (⟨6, []⟩ : Shape ℚ) "vertexPosition" 3 [0, 0, 0]).1.vertexBuffers
      = [] ++ [⟨"vertexPosition", 3, [0, 0, 0]⟩] ∧
    (addVertexAttribute (⟨6, []⟩ : Shape ℚ) "vertexPosition" 3 [0, 0, 0]).1.numVertices = 6 :=
  claim_C6 (⟨6, []⟩ : Shape ℚ) "vertexPosition" 3 [0, 0, 0] (by decide)

/-- C7: the tessellation is deterministic — its output is a function of
the declared arguments and the surface's evaluator functions alone: two
calls with identical grid, domain and color arguments on surfaces with
the same evaluators produce the same shape and identical output arrays
for every attribute stream. -/
theorem claim_C7 {α : Type} [Field α] (obj1 obj2 : ParametricSurface α)
    (M N : ℕ) (umin umax vmin vmax : α) (col1 col2 : Option (α × α × α))
    (h1 : obj1.position = obj2.position) (h2 : obj1.normal = obj2.normal)
    (h3 : obj1.texCoord = obj2.texCoord) :
    GenerateParametricSurface obj1 M N umin umax vmin vmax col1 col2
      = GenerateParametricSurface obj2 M N umin umax vmin vmax col1 col2 := by
  cases obj1
  cases obj2
  dsimp only at h1 h2 h3
  subst h1
  subst h2
  subst h3
  rfl

/-- C7 (witness): the two calls on the position-only surface coincide. -/
theorem claim_C7_witness :
    GenerateParametricSurface posOnlySurface 1 1 (0 : ℚ) 1 0 1 none none
      = GenerateParametricSurface posOnlySurface 1 1 (0 : ℚ) 1 0 1 none none :=
  claim_C7 posOnlySurface posOnlySurface 1 1 (0 : ℚ) 1 0 1 none none rfl rfl rfl

/-- C8: the torus position with radius 2 and tube radius 1/2, evaluated
at (t,p) = (0,0), is exactly (5/2, 0, 0), and at (t,p) = (pi/2, 0) it is
exactly (0, 5/2, 0), under exact real arithmetic. -/
theorem claim_C8 :
    torusPosition 2 (1 / 2) 0 0 = ((5 / 2 : ℝ), 0, 0) ∧
    torusPosition 2 (1 / 2) (Real.pi / 2) 0 = (0, (5 / 2 : ℝ), 0) := by
  constructor
  · simp only [torusPosition, Real.cos_zero, Real.sin_zero, Prod.mk.injEq]
    norm_num
  · simp only [torusPosition, Real.cos_zero, Real.sin_zero,
      Real.cos_pi_div_two, Real.sin_pi_div_two, Prod.mk.injEq]
    norm_num

/-- C9: the Sphere constructor's own inlined grid walk colors cell (i,j)
(1 <= i <= N outer, 1 <= j <= M inner) by the rule (i%2 + j%2) == 1: the
cell's 18 color floats (at offset ((i-1)*M + (j-1))*18 in cList) are 6
copies of c1 exactly when i%2 + j%2 = 1, and of c2 otherwise. -/
theorem claim_C9 {α : Type} (N M : ℕ) (c1 c2 : α × α × α) (i j : ℕ)
    (hi1 : 1 ≤ i) (hiN : i ≤ N) (hj1 : 1 ≤ j) (hjM : j ≤ M) :
    ((sphereCList N M c1 c2).drop (((i - 1) * M + (j - 1)) * 18)).take 18
      = (List.replicate 6 (if i % 2 + j % 2 = 1 then c1 else c2)).flatMap
          (fun c => [c.1, c.2.1, c.2.2]) := by
  obtain ⟨A, B, hsplit, hlen⟩ := gridCells_split hi1 hiN hj1 hjM
  rw [sphereCList, hsplit, ← hlen]
  rw [flatMap_segment _ A (i, j) B 18
    (fun b _ => by
      by_cases hpar : b.1 % 2 + b.2 % 2 = 1 <;> simp [hpar, List.range_succ])
    (by by_cases hpar : i % 2 + j % 2 = 1 <;> simp [hpar, List.range_succ])]
  by_cases hpar : i % 2 + j % 2 = 1 <;>
    simp [hpar, List.range_succ, List.replicate]

/-- C9 (witness): on a 2x2 sphere grid, cell (1,2) has 1%2 + 2%2 = 1, so
its 18 color floats are six copies of c1 = (1,0,0). -/
theorem claim_C9_witness :
    ((sphereCList 2 2 ((1 : ℚ), 0, 0) (0, 1, 0)).drop (((1 - 1) * 2 + (2 - 1)) * 18)).take 18
      = [1, 0, 0, 1, 0, 0, 1, 0, 0, 1, 0, 0, 1, 0, 0, 1, 0, 0] := by
  have h := claim_C9 2 2 ((1 : ℚ), 0, 0) (0, 1, 0) 1 2
    (by decide) (by decide) (by decide) (by decide)
  exact h.trans (by decide)

/-- C10: for every torus (any radius, radius2) and all (t,p), the torus
normal function returns (cos t * cos p, sin t * cos p, sin p) — the
scale factor h is assigned 1.0 before use on every call — and this
vector's Euclidean length is exactly 1 under exact real arithmetic. -/
theorem claim_C10 (radius radius2 t p : ℝ) :
    torusNormal radius radius2 t p
      = (Real.cos t * Real.cos p, Real.sin t * Real.cos p, Real.sin p) ∧
    Real.sqrt ((torusNormal radius radius2 t p).1 ^ 2
        + (torusNormal radius radius2 t p).2.1 ^ 2
        + (torusNormal radius radius2 t p).2.2 ^ 2) = 1 := by
  have hn : torusNormal radius radius2 t p
      = (Real.cos t * Real.cos p, Real.sin t * Real.cos p, Real.sin p) := by
    simp only [torusNormal, Prod.mk.injEq]
    norm_num
  refine ⟨hn, ?_⟩
  rw [hn]
  have key : (Real.cos t * Real.cos p) ^ 2 + (Real.sin t * Real.cos p) ^ 2
      + Real.sin p ^ 2 = 1 := by
    have ht := Real.sin_sq_add_cos_sq t
    have hp := Real.sin_sq_add_cos_sq p
    nlinarith [ht, hp]
  simp only
  rw [key, Real.sqrt_one]
